import Mathlib

/-!
Verification of the interactive quiz pipeline of `src/app.py`
(functions `parse_quiz_from_response`, `render_interactive_quiz`,
`format_quiz_answers_for_submission`, lines 2101-2273).

Texts are modelled as `List Char`.  The Python regular expressions are
fixed patterns, so they are embedded as hand-written matchers that follow
Python's backtracking search order exactly (greedy quantifiers try longest
first, lazy quantifiers shortest first, the rightmost quantifier backtracks
first, `re.findall` scans candidate start positions left to right and
resumes after the end of each match).  The character classes `\s` and `\d`
are modelled by their ASCII parts (the inputs of interest are ASCII).
-/

namespace ProfeBot

/-- Python `\s` on the ASCII range: space, tab, newline, carriage return,
vertical tab, form feed. -/
def isSpace (c : Char) : Bool :=
  c = ' ' || c = '\t' || c = '\n' || c = '\r' || c = '\x0b' || c = '\x0c'

/-- Python `\d` on the ASCII range. -/
def isDigit (c : Char) : Bool :=
  '0' ≤ c && c ≤ '9'

/-- The class `[A-Da-d]` of the option regexes. -/
def isQuizLetter (c : Char) : Bool :=
  ('A' ≤ c && c ≤ 'D') || ('a' ≤ c && c ≤ 'd')

/-- The class `[a-d]` used by the lowercase-to-uppercase normalization. -/
def isLowerAD (c : Char) : Bool :=
  'a' ≤ c && c ≤ 'd'

/-- Uppercase a lowercase ASCII letter (`m.group(1).upper()` on `[a-d]`). -/
def upperAD (c : Char) : Char :=
  Char.ofNat (c.toNat - 32)

/-- Python `str.strip()` (both ends, whitespace). -/
def pystrip (l : List Char) : List Char :=
  ((l.dropWhile isSpace).reverse.dropWhile isSpace).reverse

/-- Python `str.rstrip('?')`. -/
def rstripQm (l : List Char) : List Char :=
  (l.reverse.dropWhile (fun c => c = '?')).reverse

/-- Decimal digits of a number, as `str(n)` produces for a natural. -/
def natToDigits (n : Nat) : List Char :=
  Nat.toDigits 10 n

/-- Numeric value of a run of decimal digits, as Python `int` parses it. -/
def natOfDigits (l : List Char) : Nat :=
  l.foldl (fun n c => n * 10 + (c.toNat - 48)) 0

/-! ## The cheap rejection gate (app.py lines 2110-2119)

`has_numbered` is `re.search` of `(?:^|\n)\s*\*?\*?(\d+)[\.\)]\*?\*?\s+` and
`has_options` is `re.search` of `(?:^|\n)\s*\*?\*?[A-Da-d][\)\.]`.
A search succeeds iff the pattern matches at position 0 (the `^` branch) or
immediately at some `\n` (the `\n` branch).  After `\s*` every quantifier is
followed by a disjoint character class, so the per-position match is
deterministic. -/

/-- Consume the `\*?\*?` part: at most two stars; with three or more stars
present every backtracking alternative of the original pattern leaves a
star in front of the next (star-free) class, so the position fails, which
the caller detects because the returned list still starts with a star. -/
def dropStars2 : List Char → List Char
  | '*' :: '*' :: r => r
  | '*' :: r => r
  | r => r

/-- Matcher for `\d+[\.\)]\*?\*?\s+` (requires at least one digit, then the
delimiter, then at most two stars, then at least one whitespace). -/
def numRun : List Char → Bool
  | c :: d :: rest =>
    isDigit c &&
      (if isDigit d then numRun (d :: rest)
       else (d = '.' || d = ')') &&
         (match dropStars2 rest with
          | e :: _ => isSpace e
          | [] => false))
  | _ => false

/-- Matcher for `[A-Da-d][\)\.]`. -/
def optRun : List Char → Bool
  | c :: d :: _ => isQuizLetter c && (d = ')' || d = '.')
  | _ => false

/-- One candidate position of the numbered-item pattern, after the
`(?:^|\n)` anchor: `\s*\*?\*?\d+[\.\)]\*?\*?\s+`. -/
def gateNumFrom (s : List Char) : Bool :=
  numRun (dropStars2 (s.dropWhile isSpace))

/-- One candidate position of the lettered-option pattern, after the
`(?:^|\n)` anchor: `\s*\*?\*?[A-Da-d][\)\.]`. -/
def gateOptFrom (s : List Char) : Bool :=
  optRun (dropStars2 (s.dropWhile isSpace))

/-- Try a matcher right after every newline of the text. -/
def anyAfterNl (p : List Char → Bool) : List Char → Bool
  | [] => false
  | c :: rest => (c = '\n' && p rest) || anyAfterNl p rest

/-- `re.search(r'(?:^|\n)\s*\*?\*?(\d+)[\.\)]\*?\*?\s+', response)` as a
Boolean (the code only tests the match for truthiness). -/
def hasNumbered (s : List Char) : Bool :=
  gateNumFrom s || anyAfterNl gateNumFrom s

/-- `re.search(r'(?:^|\n)\s*\*?\*?[A-Da-d][\)\.]', response)` as a Boolean. -/
def hasOptions (s : List Char) : Bool :=
  gateOptFrom s || anyAfterNl gateOptFrom s

/-! ## Markdown cleaning and delimiter normalization (lines 2124-2131) -/

/-- `re.sub(r'\*\*', '', s)`: delete the pairs of stars, scanning left to
right without overlap. -/
def stripBold : List Char → List Char
  | '*' :: '*' :: rest => stripBold rest
  | c :: rest => c :: stripBold rest
  | [] => []

/-- Lines 2126-2127: remove the bold markers, then every remaining star. -/
def stripStars (s : List Char) : List Char :=
  (stripBold s).filter (fun c => c ≠ '*')

/-- Fuel-based scan for `normDots`; every step consumes at least one input
character, so fuel equal to the input length never runs out.  (The fuel
keeps the recursion structural, so the kernel can evaluate it.) -/
def normDotsAux : Nat → List Char → List Char
  | 0, l => l
  | fuel + 1, c :: '.' :: rest =>
    if isQuizLetter c &&
        (match rest with | r :: _ => isSpace r | [] => false) then
      c :: ')' :: ' ' :: normDotsAux fuel (rest.dropWhile isSpace)
    else
      c :: normDotsAux fuel ('.' :: rest)
  | fuel + 1, c :: rest => c :: normDotsAux fuel rest
  | _ + 1, [] => []

/-- `re.sub(r'([A-Da-d])\.\s+', r'\1) ', cleaned)`: a quiz letter followed
by a dot and at least one whitespace becomes the letter, a close paren and
a single space; the greedy `\s+` swallows the whole whitespace run. -/
def normDots (l : List Char) : List Char :=
  normDotsAux l.length l

/-- `re.sub(r'([a-d])\)', lambda m: m.group(1).upper() + ')', cleaned)`. -/
def normParens : List Char → List Char
  | c :: ')' :: rest =>
    (if isLowerAD c then upperAD c else c) :: ')' :: normParens rest
  | c :: rest => c :: normParens rest
  | [] => []

/-- The whole cleaning pipeline applied to the raw response. -/
def cleanse (response : List Char) : List Char :=
  normParens (normDots (stripStars response))

/-! ## The structural question pattern (line 2139)

`(\d+)[\.\)]\s*([^\n]+?)\s*\n\s*A\)\s*([^\n]+)\s*\n\s*B\)\s*([^\n]+)\s*\n\s*C\)\s*([^\n]+)(?:\s*\n\s*D\)\s*([^\n]+))?`
compiled with `re.MULTILINE | re.IGNORECASE` and run with `re.findall` on
the cleaned text.  `MULTILINE` is inert (the pattern has no `^`/`$`);
`IGNORECASE` makes the literals `A`/`B`/`C`/`D` match both cases.  The
matcher below realizes Python's backtracking order: each `\s*` tries the
longest run first, `([^\n]+)` tries the longest capture first, `([^\n]+?)`
the shortest, and quantifiers further right backtrack first (inner loops
vary fastest).  `\d+` needs no backtracking because a shorter digit run
leaves a digit in front of `[\.\)]`. -/

/-- The six capture groups of one question match.  As in the tuples
returned by `re.findall`, a non-participating group `D` is the empty
string; a participating `([^\n]+)` group is never empty. -/
structure QMatch where
  g1 : List Char
  g2 : List Char
  g3 : List Char
  g4 : List Char
  g5 : List Char
  g6 : List Char
deriving DecidableEq

/-- First success among candidate quantifier lengths, tried in order. -/
def firstSome {α : Type} (l : List Nat) (f : Nat → Option α) : Option α :=
  match l with
  | [] => none
  | x :: xs =>
    match f x with
    | some r => some r
    | none => firstSome xs f

/-- Candidate lengths for a greedy star: n, n-1, ..., 0. -/
def downFrom (n : Nat) : List Nat :=
  (List.range (n + 1)).reverse

/-- Candidate lengths for a greedy plus: n, n-1, ..., 1. -/
def downTo1 (n : Nat) : List Nat :=
  ((List.range n).map (fun k => k + 1)).reverse

/-- Candidate lengths for a lazy plus: 1, 2, ..., n. -/
def upTo1 (n : Nat) : List Nat :=
  (List.range n).map (fun k => k + 1)

/-- Length of the maximal `\s` run at the front. -/
def wsRun (l : List Char) : Nat :=
  (l.takeWhile isSpace).length

/-- Length of the maximal `[^\n]` run at the front. -/
def nnRun (l : List Char) : Nat :=
  (l.takeWhile (fun c => c ≠ '\n')).length

/-- Matcher for `\s*\n\s*X\)` where `X` is one option letter matched case
insensitively; the continuation consumes the rest.  The `\s*` before `\n`
backtracks (its class contains `\n`); the `\s*` after `\n` is deterministic
because its class misses the letter that must follow. -/
def wsNlLetter {α : Type} (x y : Char) (s : List Char)
    (k : List Char → Option α) : Option α :=
  firstSome (downFrom (wsRun s)) fun j =>
    match s.drop j with
    | '\n' :: r1 =>
      match r1.dropWhile isSpace with
      | c :: ')' :: r2 => if c = x || c = y then k r2 else none
      | _ => none
    | _ => none

/-- Matcher for `\s*([^\n]+)` (greedy capture) followed by a continuation
receiving the capture and the rest.  Both quantifiers backtrack: their
classes overlap on blanks. -/
def wsCapThen {α : Type} (s : List Char) (k : List Char → List Char → Option α) :
    Option α :=
  firstSome (downFrom (wsRun s)) fun j =>
    let r := s.drop j
    firstSome (downTo1 (nnRun r)) fun i =>
      k (r.take i) (r.drop i)

/-- The optional tail `(?:\s*\n\s*D\)\s*([^\n]+))?`: try to match it; when
every alternative fails the group matches empty and its capture is the
empty string. -/
def matchDOpt (s : List Char) : List Char × List Char :=
  match wsNlLetter 'D' 'd' s (fun r => wsCapThen r (fun cap rest => some (cap, rest))) with
  | some (cap, rest) => (cap, rest)
  | none => ([], s)

/-- One attempt of the full question pattern at the start of `s`; returns
the captures and the rest of the text after the match. -/
def matchQ (s : List Char) : Option (QMatch × List Char) :=
  let d := (s.takeWhile isDigit).length
  if d = 0 then none
  else
    match s.drop d with
    | c :: s2 =>
      if c = '.' || c = ')' then
        firstSome (downFrom (wsRun s2)) fun j1 =>
          let r := s2.drop j1
          firstSome (upTo1 (nnRun r)) fun i2 =>
            wsNlLetter 'A' 'a' (r.drop i2) fun rA =>
            wsCapThen rA fun g3 rB0 =>
            wsNlLetter 'B' 'b' rB0 fun rB =>
            wsCapThen rB fun g4 rC0 =>
            wsNlLetter 'C' 'c' rC0 fun rC =>
            wsCapThen rC fun g5 rD0 =>
              let p := matchDOpt rD0
              some ({ g1 := s.take d, g2 := r.take i2, g3 := g3, g4 := g4,
                      g5 := g5, g6 := p.1 }, p.2)
      else none
    | [] => none

/-- The scan loop of `re.findall`: try every start position from left to
right, resume after the end of each match.  The fuel starts at the length
of the text; every successful match consumes at least two characters (a
digit and a delimiter), so the fuel never runs out before the text does. -/
def findallQAux : Nat → List Char → List QMatch
  | 0, _ => []
  | fuel + 1, s =>
    match s with
    | [] => []
    | _ :: rest =>
      match matchQ s with
      | some (m, r) => m :: findallQAux fuel r
      | none => findallQAux fuel rest

/-- `re.findall(question_pattern, cleaned, re.MULTILINE | re.IGNORECASE)`. -/
def findallQ (s : List Char) : List QMatch :=
  findallQAux s.length s

/-! ## Intro extraction (lines 2168-2170) -/

/-- Deterministic tail `\s*1[\.\)]` of the intro pattern (`1` is the digit
one; `\s*` is followed by a class missing every whitespace). -/
def wsThen1 (l : List Char) : Bool :=
  match l.dropWhile isSpace with
  | '1' :: c :: _ => c = '.' || c = ')'
  | _ => false

/-- Scan for the leftmost `\n` whose tail matches `\s*1[\.\)]\s*`; returns
the absolute index of that `\n` (the match start). -/
def introGo : List Char → Nat → Option Nat
  | [], _ => none
  | c :: rest, idx =>
    if c = '\n' && wsThen1 rest then some idx else introGo rest (idx + 1)

/-- `re.search(r'(?:^|\n)\s*1[\.\)]\s*', cleaned)`: start index of the
leftmost match, `none` when there is no match.  At index 0 the `^` branch
consumes nothing; elsewhere the match starts at a newline. -/
def introSearch (s : List Char) : Option Nat :=
  if wsThen1 s then some 0 else introGo s 0

/-! ## The extracted data (lines 2145-2176) -/

/-- One parsed question: `{'number': int(q_num), 'question': q_text,
'options': {...}}` with the options dict kept as an ordered key-value
list. -/
structure Question where
  number : Nat
  question : List Char
  options : List (Char × List Char)
deriving DecidableEq

/-- The parsed quiz: `{'intro': ..., 'questions': ..., 'total': ...}`. -/
structure Quiz where
  intro : List Char
  questions : List Question
  total : Nat
deriving DecidableEq

/-- Lines 2145-2160: build one question from a regex match.  The question
text is `match[1].strip().rstrip('?').strip() + '?'`; each option value is
stripped; `D` is added only when its capture is non-empty ("truthy"). -/
def mkQuestion (m : QMatch) : Question :=
  { number := natOfDigits m.g1
    question := pystrip (rstripQm (pystrip m.g2)) ++ ['?']
    options :=
      [('A', pystrip m.g3), ('B', pystrip m.g4), ('C', pystrip m.g5)] ++
        (if m.g6.isEmpty then [] else [('D', pystrip m.g6)]) }

/-- Lines 2168-2170: the intro is the slice of the ORIGINAL response up to
the start index found in the CLEANED text, stripped; empty when the
pattern `1.`/`1)` never occurs at a line start of the cleaned text. -/
def introText (response cleaned : List Char) : List Char :=
  match introSearch cleaned with
  | some p => pystrip (response.take p)
  | none => []

/-- `parse_quiz_from_response` (lines 2101-2176).  The quiz-keyword scan of
lines 2114-2115 is computed but never used by the code, so it is omitted.
`None` is `none`; a returned dict is a `Quiz`. -/
def parse_quiz_from_response (response : List Char) : Option Quiz :=
  if hasNumbered response && hasOptions response then
    let cleaned := cleanse response
    let questions := (findallQ cleaned).map mkQuestion
    if questions.isEmpty then none
    else
      some { intro := introText response cleaned
             questions := questions
             total := questions.length }
  else none

/-! ## The quiz session (lines 2179-2273)

The per-user answer store `st.session_state.quiz_answers` is a Python dict
from string keys to the selected option strings; it is modelled as a
function from keys to `Option` values.  Keys are built by the f-string
`f"{quiz_id}_q{q['number']}"`, so answer state is keyed only by quiz id
and question number. -/

/-- The answer store. -/
def Answers : Type :=
  List Char → Option (List Char)

/-- The store with no recorded selections. -/
def emptyAnswers : Answers :=
  fun _ => none

/-- Dict assignment `answers[k] = v`. -/
def setAnswer (a : Answers) (k v : List Char) : Answers :=
  fun q => if q = k then some v else a q

/-- Dict deletion `del answers[k]` (`if k in answers: del answers[k]` has
the same effect on the lookup function). -/
def delAnswer (a : Answers) (k : List Char) : Answers :=
  fun q => if q = k then none else a q

/-- The key `f"{quiz_id}_q{q['number']}"` (lines 2195, 2249, 2260). -/
def qkey (quizId : List Char) (n : Nat) : List Char :=
  quizId ++ '_' :: 'q' :: natToDigits n

/-- Lines 2218-2219: `if selected: st.session_state.quiz_answers[q_key] =
selected` — a selection event records the letter under the question's key
when the selected value is truthy. -/
def selectAnswer (a : Answers) (quizId : List Char) (n : Nat)
    (letter : List Char) : Answers :=
  if letter.isEmpty then a else setAnswer a (qkey quizId n) letter

/-- A whole sequence of selection events on one quiz session. -/
def applySelects (quizId : List Char) (sels : List (Nat × List Char)) : Answers :=
  sels.foldl (fun a s => selectAnswer a quizId s.1 s.2) emptyAnswers

/-- Lines 2246-2252, the Clear Answers handler: delete the key of every
question of this quiz from the store. -/
def clearQuiz (a : Answers) (quizId : List Char) (quiz : Quiz) : Answers :=
  quiz.questions.foldl (fun acc q => delAnswer acc (qkey quizId q.number)) a

/-- Lines 2226-2228: a question counts as answered when its key is present
with a truthy (non-empty) value. -/
def answeredOne (a : Answers) (quizId : List Char) (q : Question) : Bool :=
  !((a (qkey quizId q.number)).getD []).isEmpty

/-- The `answered` counter displayed as "Answered: n/total". -/
def answeredCount (a : Answers) (quizId : List Char) (quiz : Quiz) : Nat :=
  quiz.questions.countP (answeredOne a quizId)

def preambleChars : List Char :=
  ['H', 'e', 'r', 'e', ' ', 'a', 'r', 'e', ' ', 'm', 'y', ' ', 'a', 'n', 's', 'w', 'e', 'r', 's', ' ', 't', 'o', ' ', 't', 'h', 'e', ' ', 'q', 'u', 'i', 'z', ':', '\n', '\n']

def trailerChars : List Char :=
  ['\n', '\n', 'P', 'l', 'e', 'a', 's', 'e', ' ', 'c', 'h', 'e', 'c', 'k', ' ', 'm', 'y', ' ', 'a', 'n', 's', 'w', 'e', 'r', 's', ' ', 'a', 'n', 'd', ' ', 'g', 'i', 'v', 'e', ' ', 'm', 'e', ' ', 'd', 'e', 't', 'a', 'i', 'l', 'e', 'd', ' ', 'f', 'e', 'e', 'd', 'b', 'a', 'c', 'k', ' ', 'o', 'n', ' ', 'e', 'a', 'c', 'h', ' ', 'o', 'n', 'e', '.', ' ', 'T', 'e', 'l', 'l', ' ', 'm', 'e', ' ', 'w', 'h', 'i', 'c', 'h', ' ', 'o', 'n', 'e', 's', ' ', 'a', 'r', 'e', ' ', 'c', 'o', 'r', 'r', 'e', 'c', 't', ' ', 'a', 'n', 'd', ' ', 'e', 'x', 'p', 'l', 'a', 'i', 'n', ' ', 'a', 'n', 'y', ' ', 'm', 'i', 's', 't', 'a', 'k', 'e', 's', '.']

/-- The default `"Not answered"` of `answers.get(q_key, "Not answered")`. -/
def notAnswered : List Char :=
  ['N', 'o', 't', ' ', 'a', 'n', 's', 'w', 'e', 'r', 'e', 'd']

/-- Lines 2259-2267: one line of the submission body. -/
def submissionLine (a : Answers) (quizId : List Char) (q : Question) : List Char :=
  let ans := (a (qkey quizId q.number)).getD notAnswered
  if ans ≠ notAnswered then
    natToDigits q.number ++ '.' :: ' ' :: ans
  else
    natToDigits q.number ++ '.' :: ' ' :: '(' :: (notAnswered ++ [')'])

/-- `format_quiz_answers_for_submission` (lines 2255-2273). -/
def format_quiz_answers_for_submission (quiz : Quiz) (quizId : List Char)
    (a : Answers) : List Char :=
  preambleChars ++
    (List.intercalate ['\n'] (quiz.questions.map (submissionLine a quizId))) ++
    trailerChars

/-! ## Concrete inputs and their expected parses, used by the claims -/

def exNoQuiz : List Char :=
  ['h', 'e', 'l', 'l', 'o', ' ', 'w', 'o', 'r', 'l', 'd']

def exQuizBasic : List Char :=
  ['1', '.', ' ', 'Q', '?', '\n', 'A', ')', ' ', 'a', '\n', 'B', ')', ' ', 'b', '\n', 'C', ')', ' ', 'c']

def exGateOnly : List Char :=
  ['1', '.', ' ', 'h', 'e', 'l', 'l', 'o', '\n', 'A', ')', ' ', 'x']

def exC4 : List Char :=
  ['1', '.', ' ', 'W', 'h', 'y', '?', ' ', '?', '\n', 'A', ')', ' ', '\n', 'B', ')', ' ', 'b', '\n', 'C', ')', ' ', 'c']

def exC5 : List Char :=
  ['H', 'i', '\n', '2', '.', ' ', 'Q', '?', '\n', 'A', ')', ' ', 'a', '\n', 'B', ')', ' ', 'b', '\n', 'C', ')', ' ', 'c', '\n', 'B', 'y', 'e', '!', '\n', '1', '.', ' ', 'x']

def exC6a : List Char :=
  ['1', '.', ' ', 'F', 'i', 'r', 's', 't', '?', '\n', 'A', ')', ' ', 'a', '\n', 'B', ')', ' ', 'b', '\n', '2', '.', ' ', 'S', 'e', 'c', 'o', 'n', 'd', '?', '\n', 'A', ')', ' ', 'x', '\n', 'B', ')', ' ', 'y', '\n', 'C', ')', ' ', 'z']

def exC6b : List Char :=
  ['1', '.', ' ', 'F', 'i', 'r', 's', 't', '?', '\n', 'A', ')', ' ', 'a', '\n', 'B', ')', ' ', 'b', '\n', 'D', ')', ' ', 'd', '\n', '2', '.', ' ', 'S', 'e', 'c', 'o', 'n', 'd', '?', '\n', 'A', ')', ' ', 'x', '\n', 'B', ')', ' ', 'y', '\n', 'C', ')', ' ', 'z']

def exC9canon : List Char :=
  ['H', 'i', '\n', '1', '.', ' ', 'Q', '?', '\n', 'A', ')', ' ', 'x', '\n', 'B', ')', ' ', 'y', '\n', 'C', ')', ' ', 'z']

def exC9var : List Char :=
  ['*', '*', 'H', 'i', '*', '*', '\n', '1', '.', ' ', 'Q', '?', '\n', 'a', '.', ' ', 'x', '\n', 'b', '.', ' ', 'y', '\n', 'c', '.', ' ', 'z']

def exC10 : List Char :=
  ['1', '.', ' ', 'Q', '?', '\n', 'A', ')', ' ', 'a', '\n', 'B', ')', ' ', 'b', '\n', 'C', ')', ' ', 'c', '\n', '1', '.', ' ', 'R', '?', '\n', 'A', ')', ' ', 'd', '\n', 'B', ')', ' ', 'e', '\n', 'C', ')', ' ', 'f']

def valQuizBasic : Quiz :=
  { intro := [], total := 1, questions := [
    { number := 1, question := ['Q', '?'], options := [('A', ['a']), ('B', ['b']), ('C', ['c'])] }] }

def valC4 : Quiz :=
  { intro := [], total := 1, questions := [
    { number := 1, question := ['W', 'h', 'y', '?', '?'], options := [('A', []), ('B', ['b']), ('C', ['c'])] }] }

def valC5 : Quiz :=
  { intro := ['H', 'i', '\n', '2', '.', ' ', 'Q', '?', '\n', 'A', ')', ' ', 'a', '\n', 'B', ')', ' ', 'b', '\n', 'C', ')', ' ', 'c', '\n', 'B', 'y', 'e', '!'], total := 1, questions := [
    { number := 2, question := ['Q', '?'], options := [('A', ['a']), ('B', ['b']), ('C', ['c'])] }] }

def valC6a : Quiz :=
  { intro := [], total := 1, questions := [
    { number := 2, question := ['S', 'e', 'c', 'o', 'n', 'd', '?'], options := [('A', ['x']), ('B', ['y']), ('C', ['z'])] }] }

def valC6b : Quiz :=
  { intro := [], total := 1, questions := [
    { number := 2, question := ['S', 'e', 'c', 'o', 'n', 'd', '?'], options := [('A', ['x']), ('B', ['y']), ('C', ['z'])] }] }

def valC9canon : Quiz :=
  { intro := ['H', 'i'], total := 1, questions := [
    { number := 1, question := ['Q', '?'], options := [('A', ['x']), ('B', ['y']), ('C', ['z'])] }] }

def valC9var : Quiz :=
  { intro := ['*', '*'], total := 1, questions := [
    { number := 1, question := ['Q', '?'], options := [('A', ['x']), ('B', ['y']), ('C', ['z'])] }] }

def valC10 : Quiz :=
  { intro := [], total := 2, questions := [
    { number := 1, question := ['Q', '?'], options := [('A', ['a']), ('B', ['b']), ('C', ['c'])] },
    { number := 1, question := ['R', '?'], options := [('A', ['d']), ('B', ['e']), ('C', ['f'])] }] }

/-! ## The claims -/

/-- C1.  Extraction is modelled as a total Lean function on texts, so it
terminates normally on every input; this theorem states that its only
outcomes are "no quiz detected" (`none`) and a parsed `Quiz`, with no
other failure mode. -/
theorem c1_extraction_total (s : List Char) :
    parse_quiz_from_response s = none ∨
      ∃ q : Quiz, parse_quiz_from_response s = some q := by
  cases h : parse_quiz_from_response s with
  | none => exact Or.inl rfl
  | some q => exact Or.inr ⟨q, rfl⟩

/-- C2.  When the input has no position (start of text or right after a
newline) matching the numbered-item pattern
`\s*\*?\*?\d+[\.\)]\*?\*?\s+`, or none matching the lettered-option
pattern `\s*\*?\*?[A-Da-d][\)\.]`, extraction reports no quiz. -/
theorem c2_gate_absent_no_quiz (s : List Char)
    (h : hasNumbered s = false ∨ hasOptions s = false) :
    parse_quiz_from_response s = none := by
  unfold parse_quiz_from_response
  rcases h with h | h <;> simp [h]

/-- Witness for C2 at a concrete prose input. -/
theorem c2_gate_absent_no_quiz_witness :
    hasNumbered exNoQuiz = false ∧ parse_quiz_from_response exNoQuiz = none :=
  ⟨by decide, c2_gate_absent_no_quiz exNoQuiz (Or.inl (by decide))⟩

/-- C3.  A returned `Quiz` always has a non-empty `questions` list, and in
particular when the structural pattern yields zero matches even though the
cheap rejection gate passed, the result is "no quiz detected" rather than
an empty `Quiz`. -/
theorem c3_no_empty_quiz (s : List Char) :
    (∀ q : Quiz, parse_quiz_from_response s = some q → q.questions ≠ []) ∧
      ((hasNumbered s && hasOptions s) = true → findallQ (cleanse s) = [] →
        parse_quiz_from_response s = none) := by
  constructor
  · intro q h
    simp only [parse_quiz_from_response] at h
    split at h
    · split at h
      · exact absurd h (by simp)
      · rename_i hne
        obtain rfl : _ = q := Option.some.inj h
        simpa using hne
    · exact absurd h (by simp)
  · intro hg hf
    simp [parse_quiz_from_response, hg, hf]

/-- Witness for C3: a well-formed quiz parses to a non-empty question
list, and an input that passes the gate but defeats the structural
pattern yields `none`. -/
theorem c3_no_empty_quiz_witness :
    (parse_quiz_from_response exQuizBasic = some valQuizBasic ∧
        valQuizBasic.questions ≠ []) ∧
      ((hasNumbered exGateOnly && hasOptions exGateOnly) = true ∧
        findallQ (cleanse exGateOnly) = [] ∧
        parse_quiz_from_response exGateOnly = none) :=
  ⟨⟨by decide, (c3_no_empty_quiz exQuizBasic).1 valQuizBasic (by decide)⟩,
    by decide, by decide,
    (c3_no_empty_quiz exGateOnly).2 (by decide) (by decide)⟩

/-- C6.  A question block with an incomplete option run (only `A)` and
`B)` before the next numbered question in `exC6a`) or a non-contiguous one
(`A)`, `B)`, `D)` with no `C)` in `exC6b`) is silently skipped: extraction
still returns normally, the malformed block contributes no question, and
the following well-formed question (number 2) is still extracted. -/
theorem c6_malformed_blocks_skipped :
    (parse_quiz_from_response exC6a = some valC6a ∧
        valC6a.questions.map Question.number = [2]) ∧
      (parse_quiz_from_response exC6b = some valC6b ∧
        valC6b.questions.map Question.number = [2]) :=
  ⟨⟨by decide, by decide⟩, ⟨by decide, by decide⟩⟩

/-- C4 counterexample.  On `exC4` (`1. Why? ?` with an option line `A) `
whose text is blank) extraction returns a `Quiz` whose question has an
EMPTY option text for `A` — the regex captures a lone blank before the
newline and `strip()` empties it — and whose question text ends in two
question marks (`.rstrip('?')` removes only the trailing run, then
`.strip()` exposes an inner `?` before `'?'` is appended).  Both violate
the claimed invariant. -/
theorem c4_invariant_counterexample :
    parse_quiz_from_response exC4 = some valC4 ∧
      valC4.questions.map Question.options =
        [[('A', []), ('B', ['b']), ('C', ['c'])]] ∧
      valC4.questions.map Question.question = [['W', 'h', 'y', '?', '?']] :=
  ⟨by decide, by decide, by decide⟩

/-- C5 counterexample.  On `exC5` the first recognized question is number
2; the intro search looks for a literal `1.`/`1)` line instead of the
first matched question, finds the stray trailing `1. x`, and so the
returned `intro` swallows the whole question block and the trailing prose
`Bye!`, instead of equalling the text `Hi` preceding the first recognized
question marker. -/
theorem c5_intro_counterexample :
    parse_quiz_from_response exC5 = some valC5 ∧
      valC5.intro ≠ ['H', 'i'] ∧
      valC5.intro ≠ ['H', 'i', '\n'] :=
  ⟨by decide, by decide, by decide⟩

/-- C9 counterexample.  `exC9var` differs from `exC9canon` only by the
tolerated variations (bold markers around the intro, `a.`/`b.`/`c.`
option delimiters), yet the two extracted quizzes differ: the questions
agree but the intro of the variant is the mangled slice `**` (the slice
index is computed in the cleaned text and applied to the raw text). -/
theorem c9_variation_counterexample :
    parse_quiz_from_response exC9canon = some valC9canon ∧
      parse_quiz_from_response exC9var = some valC9var ∧
      valC9canon.questions = valC9var.questions ∧
      valC9canon ≠ valC9var ∧
      valC9var.intro = ['*', '*'] :=
  ⟨by decide, by decide, by decide, by decide, by decide⟩

/-- C9 amended.  Two inputs that normalize to the same cleaned text — as
the tolerated variations (mixed-case `a.`/`A.` versus `A)` option
delimiters, `**1.**` question numbers, markdown emphasis) do when they
carry identical content — extract exactly the same questions, in the same
order, with the same total.  Only the `intro` field escapes this
invariance: it is sliced from the raw, un-normalized text, so the full
`Quiz` values can still differ (even with no emphasis present at all). -/
theorem c9_variation_amended (s1 s2 : List Char) (q1 q2 : Quiz)
    (hc : cleanse s1 = cleanse s2)
    (h1 : parse_quiz_from_response s1 = some q1)
    (h2 : parse_quiz_from_response s2 = some q2) :
    q1.questions = q2.questions ∧ q1.total = q2.total := by
  simp only [parse_quiz_from_response] at h1 h2
  split at h1
  · split at h1
    · exact absurd h1 (by simp)
    · split at h2
      · split at h2
        · exact absurd h2 (by simp)
        · obtain rfl := Option.some.inj h1
          obtain rfl := Option.some.inj h2
          refine ⟨?_, ?_⟩
          · show (findallQ (cleanse s1)).map mkQuestion =
              (findallQ (cleanse s2)).map mkQuestion
            rw [hc]
          · show ((findallQ (cleanse s1)).map mkQuestion).length =
              ((findallQ (cleanse s2)).map mkQuestion).length
            rw [hc]
      · exact absurd h2 (by simp)
  · exact absurd h1 (by simp)

/-- Witness for the amended C9: the canonical/variant pair of the
counterexample normalizes to one cleaned text, so their questions and
totals coincide (while their intros differ, as the counterexample
records). -/
theorem c9_variation_amended_witness :
    (cleanse exC9canon = cleanse exC9var ∧
      parse_quiz_from_response exC9canon = some valC9canon ∧
      parse_quiz_from_response exC9var = some valC9var) ∧
      (valC9canon.questions = valC9var.questions ∧
        valC9canon.total = valC9var.total) :=
  ⟨⟨by decide, by decide, by decide⟩,
    c9_variation_amended exC9canon exC9var valC9canon valC9var
      (by decide) (by decide) (by decide)⟩

/-! ## Helper lemmas about stripping -/

theorem dropWhile_idem (p : Char → Bool) (l : List Char) :
    (l.dropWhile p).dropWhile p = l.dropWhile p := by
  induction l with
  | nil => rfl
  | cons c t ih =>
    by_cases h : p c
    · simp [List.dropWhile_cons, h, ih]
    · simp [List.dropWhile_cons, h]

theorem head?_dropWhile_false (p : Char → Bool) (l : List Char) (x : Char)
    (h : (l.dropWhile p).head? = some x) : p x = false := by
  induction l with
  | nil => simp at h
  | cons c t ih =>
    by_cases hc : p c
    · rw [List.dropWhile_cons_of_pos hc] at h
      exact ih h
    · rw [List.dropWhile_cons_of_neg hc] at h
      simp only [List.head?_cons, Option.some.injEq] at h
      subst h
      exact Bool.eq_false_iff.mpr hc

theorem getLast?_dropWhile (p : Char → Bool) (l : List Char)
    (h : l.dropWhile p ≠ []) : (l.dropWhile p).getLast? = l.getLast? := by
  induction l with
  | nil => simp at h
  | cons c t ih =>
    by_cases hc : p c
    · rw [List.dropWhile_cons_of_pos hc] at h ⊢
      have ht : t ≠ [] := by
        rintro rfl
        simp at h
      rw [ih h]
      cases t with
      | nil => exact absurd rfl ht
      | cons b u => simp
    · rw [List.dropWhile_cons_of_neg hc]

theorem dropWhile_eq_self_of_head (p : Char → Bool) (l : List Char)
    (h : ∀ x, l.head? = some x → p x = false) : l.dropWhile p = l := by
  cases l with
  | nil => rfl
  | cons c t =>
    exact List.dropWhile_cons_of_neg (by simp [h c rfl])

/-- A stripped text never starts with whitespace. -/
theorem pystrip_head (l : List Char) (x : Char)
    (h : (pystrip l).head? = some x) : isSpace x = false := by
  unfold pystrip at h
  rw [List.head?_reverse] at h
  have hne : (List.dropWhile isSpace (l.dropWhile isSpace).reverse) ≠ [] := by
    intro hz
    rw [hz] at h
    simp at h
  rw [getLast?_dropWhile _ _ hne, List.getLast?_reverse] at h
  exact head?_dropWhile_false _ _ _ h

/-- A stripped text never ends in whitespace. -/
theorem pystrip_getLast (l : List Char) (x : Char)
    (h : (pystrip l).getLast? = some x) : isSpace x = false := by
  unfold pystrip at h
  rw [List.getLast?_reverse] at h
  exact head?_dropWhile_false _ _ _ h

/-- Stripping is idempotent: a stripped value carries no surrounding
whitespace. -/
theorem pystrip_idem (l : List Char) : pystrip (pystrip l) = pystrip l := by
  have h1 : (pystrip l).dropWhile isSpace = pystrip l :=
    dropWhile_eq_self_of_head _ _ (fun x hx => pystrip_head l x hx)
  show ((((pystrip l).dropWhile isSpace).reverse.dropWhile isSpace)).reverse = pystrip l
  rw [h1]
  have h2 : (pystrip l).reverse.dropWhile isSpace = (pystrip l).reverse := by
    refine dropWhile_eq_self_of_head _ _ (fun x hx => ?_)
    rw [List.head?_reverse] at hx
    exact pystrip_getLast l x hx
  rw [h2, List.reverse_reverse]

/-- C4 amended.  Every question of an extracted quiz has options keyed
exactly `A, B, C` or `A, B, C, D`, in that order and without duplicates;
every option value is already stripped of surrounding whitespace (though
it may be empty); and the question text ends with a question mark (though
not necessarily exactly one). -/
theorem c4_question_shape (s : List Char) (q : Quiz)
    (h : parse_quiz_from_response s = some q) :
    ∀ qu ∈ q.questions,
      (qu.options.map Prod.fst = ['A', 'B', 'C'] ∨
        qu.options.map Prod.fst = ['A', 'B', 'C', 'D']) ∧
      (∀ pr ∈ qu.options, pystrip pr.2 = pr.2) ∧
      qu.question.getLast? = some '?' := by
  intro qu hqu
  have hq : ∃ m : QMatch, qu = mkQuestion m := by
    simp only [parse_quiz_from_response] at h
    split at h
    · split at h
      · exact absurd h (by simp)
      · obtain rfl := Option.some.inj h
        simp only [List.mem_map] at hqu
        obtain ⟨m, _, rfl⟩ := hqu
        exact ⟨m, rfl⟩
    · exact absurd h (by simp)
  obtain ⟨m, rfl⟩ := hq
  refine ⟨?_, ?_, ?_⟩
  · by_cases h6 : m.g6.isEmpty <;> simp [mkQuestion, h6]
  · intro pr hpr
    by_cases h6 : m.g6.isEmpty <;> simp [mkQuestion, h6] at hpr
    · rcases hpr with rfl | rfl | rfl <;> exact pystrip_idem _
    · rcases hpr with rfl | rfl | rfl | rfl <;> exact pystrip_idem _
  · simp [mkQuestion, List.getLast?_concat]

/-- Witness for the amended C4, at the counterexample input itself: the
empty `A` value and the `Why??` text still satisfy the amended shape. -/
theorem c4_question_shape_witness :
    parse_quiz_from_response exC4 = some valC4 ∧
      ∀ qu ∈ valC4.questions,
        (qu.options.map Prod.fst = ['A', 'B', 'C'] ∨
          qu.options.map Prod.fst = ['A', 'B', 'C', 'D']) ∧
        (∀ pr ∈ qu.options, pystrip pr.2 = pr.2) ∧
        qu.question.getLast? = some '?' :=
  ⟨by decide, c4_question_shape exC4 valC4 (by decide)⟩

/-! ## Characterizing the intro slice -/

/-- The `\n` branch of the intro pattern matches at index `k`: a newline
there, followed (after whitespace) by the digit one and a delimiter. -/
def nlMarkerAt (l : List Char) (k : Nat) : Prop :=
  l.get? k = some '\n' ∧ wsThen1 (l.drop (k + 1)) = true

/-- The intro pattern `(?:^|\n)\s*1[\.\)]\s*` matches with start index
`k`: either the `^` branch at 0 or the newline branch. -/
def markerAt (l : List Char) (k : Nat) : Prop :=
  (k = 0 ∧ wsThen1 l = true) ∨ nlMarkerAt l k

theorem introGo_some_spec (l : List Char) :
    ∀ (idx m : Nat), introGo l idx = some m →
      ∃ k, m = idx + k ∧ nlMarkerAt l k ∧ ∀ t, t < k → ¬ nlMarkerAt l t := by
  induction l with
  | nil => intro idx m h; simp [introGo] at h
  | cons c rest ih =>
    intro idx m h
    unfold introGo at h
    by_cases hc : (c = '\n' && wsThen1 rest) = true
    · rw [if_pos hc] at h
      obtain rfl := Option.some.inj h
      obtain ⟨hc1, hc2⟩ := Bool.and_eq_true_iff.mp hc
      refine ⟨0, by omega, ?_, by omega⟩
      refine ⟨?_, ?_⟩
      · simpa using of_decide_eq_true hc1
      · simpa using hc2
    · rw [if_neg hc] at h
      obtain ⟨k, hk, hmark, hleast⟩ := ih (idx + 1) m h
      refine ⟨k + 1, by omega, ?_, ?_⟩
      · obtain ⟨h1, h2⟩ := hmark
        exact ⟨by simpa using h1, by simpa using h2⟩
      · intro t ht hmk
        cases t with
        | zero =>
          obtain ⟨h1, h2⟩ := hmk
          apply hc
          refine Bool.and_eq_true_iff.mpr ⟨decide_eq_true ?_, ?_⟩
          · simpa using h1
          · simpa using h2
        | succ t =>
          refine hleast t (by omega) ?_
          obtain ⟨h1, h2⟩ := hmk
          exact ⟨by simpa using h1, by simpa using h2⟩

theorem introGo_none_spec (l : List Char) :
    ∀ (idx : Nat), introGo l idx = none → ∀ k, ¬ nlMarkerAt l k := by
  induction l with
  | nil => intro idx _ k hk; simp [nlMarkerAt] at hk
  | cons c rest ih =>
    intro idx h k hk
    unfold introGo at h
    by_cases hc : (c = '\n' && wsThen1 rest) = true
    · rw [if_pos hc] at h; cases h
    · rw [if_neg hc] at h
      cases k with
      | zero =>
        obtain ⟨h1, h2⟩ := hk
        apply hc
        refine Bool.and_eq_true_iff.mpr ⟨decide_eq_true ?_, ?_⟩
        · simpa using h1
        · simpa using h2
      | succ k =>
        obtain ⟨h1, h2⟩ := hk
        exact ih (idx + 1) h k ⟨by simpa using h1, by simpa using h2⟩

/-- A successful intro search returns the start index of the LEFTMOST
match of the intro pattern. -/
theorem introSearch_some_spec (l : List Char) (p : Nat)
    (h : introSearch l = some p) :
    markerAt l p ∧ ∀ t, t < p → ¬ markerAt l t := by
  unfold introSearch at h
  by_cases h1 : wsThen1 l = true
  · rw [if_pos h1] at h
    obtain rfl := Option.some.inj h
    exact ⟨Or.inl ⟨rfl, h1⟩, by omega⟩
  · rw [if_neg h1] at h
    obtain ⟨k, hk, hm, hleast⟩ := introGo_some_spec l 0 p h
    obtain rfl : p = k := by omega
    refine ⟨Or.inr hm, ?_⟩
    intro t ht hmk
    rcases hmk with ⟨_, hw⟩ | hnl
    · exact h1 hw
    · exact hleast t (by omega) hnl

/-- A failed intro search means the intro pattern matches nowhere. -/
theorem introSearch_none_spec (l : List Char) (h : introSearch l = none) :
    ∀ t, ¬ markerAt l t := by
  unfold introSearch at h
  by_cases h1 : wsThen1 l = true
  · rw [if_pos h1] at h; cases h
  · rw [if_neg h1] at h
    intro t hmk
    rcases hmk with ⟨_, hw⟩ | hnl
    · exact h1 hw
    · exact introGo_none_spec l 0 h t hnl

/-- C5 amended.  When extraction returns a `Quiz`, its `intro` is the
slice of the ORIGINAL input up to the start index, computed in the CLEANED
text, of the leftmost match of `1.`/`1)` at a line start (stripped; empty
when there is no such match) — an index that belongs to neither the
first recognized question nor, in general, the original text, so the
intro can absorb question blocks and trailing prose; and the questions
are listed in the order the scan matches them, i.e. in order of
appearance, not sorted by their number. -/
theorem c5_intro_amended (s : List Char) (q : Quiz)
    (h : parse_quiz_from_response s = some q) :
    ((∃ p, markerAt (cleanse s) p ∧ (∀ t, t < p → ¬ markerAt (cleanse s) t) ∧
        q.intro = pystrip (s.take p)) ∨
      ((∀ t, ¬ markerAt (cleanse s) t) ∧ q.intro = [])) ∧
      q.questions = (findallQ (cleanse s)).map mkQuestion := by
  simp only [parse_quiz_from_response] at h
  split at h
  · split at h
    · exact absurd h (by simp)
    · obtain rfl := Option.some.inj h
      refine ⟨?_, rfl⟩
      unfold introText
      cases hs : introSearch (cleanse s) with
      | none => exact Or.inr ⟨introSearch_none_spec _ hs, by simp [hs]⟩
      | some p =>
        obtain ⟨hm, hleast⟩ := introSearch_some_spec _ _ hs
        exact Or.inl ⟨p, hm, hleast, by simp [hs]⟩
  · exact absurd h (by simp)

/-- Witness for the amended C5 at the counterexample input: the marker is
the stray `1. x` line, and the intro is the stripped 28-character prefix
of the raw text. -/
theorem c5_intro_amended_witness :
    parse_quiz_from_response exC5 = some valC5 ∧
      (((∃ p, markerAt (cleanse exC5) p ∧
          (∀ t, t < p → ¬ markerAt (cleanse exC5) t) ∧
          valC5.intro = pystrip (exC5.take p)) ∨
        ((∀ t, ¬ markerAt (cleanse exC5) t) ∧ valC5.intro = [])) ∧
        valC5.questions = (findallQ (cleanse exC5)).map mkQuestion) :=
  ⟨by decide, c5_intro_amended exC5 valC5 (by decide)⟩

/-! ## The submission payload -/

/-- The submission line exactly as the design text describes it: the
`{number}. {selected_letter}` line when the question has a recorded
selection, the `{number}. (Not answered)` line when it has none. -/
def specSubmissionLine (a : Answers) (quizId : List Char) (q : Question) :
    List Char :=
  match a (qkey quizId q.number) with
  | some letter => natToDigits q.number ++ '.' :: ' ' :: letter
  | none => natToDigits q.number ++ '.' :: ' ' :: '(' :: (notAnswered ++ [')'])

/-- The whole submission as the design text describes it: the fixed
preamble, one line per question of the quiz in that order, the fixed
trailer. -/
def specSubmission (quiz : Quiz) (quizId : List Char) (a : Answers) :
    List Char :=
  preambleChars ++
    (List.intercalate ['\n'] (quiz.questions.map (specSubmissionLine a quizId))) ++
    trailerChars

/-- C7.  As long as no recorded selection is the literal string
`Not answered` (selections are option letters, so this always holds in the
application), the produced payload is exactly the described one: preamble,
then for every question of the quiz in order the line
`{number}. {selected_letter}` or `{number}. (Not answered)`, then the
trailer. -/
theorem c7_submission_format (quiz : Quiz) (quizId : List Char) (a : Answers)
    (hv : ∀ k v, a k = some v → v ≠ notAnswered) :
    format_quiz_answers_for_submission quiz quizId a =
      specSubmission quiz quizId a := by
  unfold format_quiz_answers_for_submission specSubmission
  have hmap : quiz.questions.map (submissionLine a quizId) =
      quiz.questions.map (specSubmissionLine a quizId) := by
    apply List.map_congr_left
    intro q _
    unfold submissionLine specSubmissionLine
    cases hk : a (qkey quizId q.number) with
    | none => simp
    | some v =>
      have : v ≠ notAnswered := hv _ _ hk
      simp [this]
  rw [hmap]

def exQid7 : List Char :=
  ['q', 'z']

/-- A three-question quiz for the round-trip example of the claim. -/
def exQuiz7 : Quiz :=
  { intro := [], total := 3, questions := [
    { number := 1, question := ['Q', '?'], options := [('A', ['a']), ('B', ['b']), ('C', ['c'])] },
    { number := 2, question := ['R', '?'], options := [('A', ['a']), ('B', ['b']), ('C', ['c'])] },
    { number := 3, question := ['S', '?'], options := [('A', ['a']), ('B', ['b']), ('C', ['c'])] }] }

/-- A session that answered `A` on all three questions. -/
def exAns7 : Answers :=
  applySelects exQid7 [(1, ['A']), (2, ['A']), (3, ['A'])]

/-- The exact payload the claim displays for that session. -/
def exSubmission7 : List Char :=
  ['H', 'e', 'r', 'e', ' ', 'a', 'r', 'e', ' ', 'm', 'y', ' ', 'a', 'n', 's', 'w', 'e', 'r', 's', ' ', 't', 'o', ' ', 't', 'h', 'e', ' ', 'q', 'u', 'i', 'z', ':', '\n', '\n', '1', '.', ' ', 'A', '\n', '2', '.', ' ', 'A', '\n', '3', '.', ' ', 'A', '\n', '\n', 'P', 'l', 'e', 'a', 's', 'e', ' ', 'c', 'h', 'e', 'c', 'k', ' ', 'm', 'y', ' ', 'a', 'n', 's', 'w', 'e', 'r', 's', ' ', 'a', 'n', 'd', ' ', 'g', 'i', 'v', 'e', ' ', 'm', 'e', ' ', 'd', 'e', 't', 'a', 'i', 'l', 'e', 'd', ' ', 'f', 'e', 'e', 'd', 'b', 'a', 'c', 'k', ' ', 'o', 'n', ' ', 'e', 'a', 'c', 'h', ' ', 'o', 'n', 'e', '.', ' ', 'T', 'e', 'l', 'l', ' ', 'm', 'e', ' ', 'w', 'h', 'i', 'c', 'h', ' ', 'o', 'n', 'e', 's', ' ', 'a', 'r', 'e', ' ', 'c', 'o', 'r', 'r', 'e', 'c', 't', ' ', 'a', 'n', 'd', ' ', 'e', 'x', 'p', 'l', 'a', 'i', 'n', ' ', 'a', 'n', 'y', ' ', 'm', 'i', 's', 't', 'a', 'k', 'e', 's', '.']

set_option maxRecDepth 8000

/-- Witness for C7: the round-trip example of the claim.  A 3-question
quiz with every question answered `A` produces exactly the displayed
payload. -/
theorem c7_submission_format_witness :
    (∀ k v, exAns7 k = some v → v ≠ notAnswered) ∧
      format_quiz_answers_for_submission exQuiz7 exQid7 exAns7 =
        exSubmission7 := by
  have hv : ∀ k v, exAns7 k = some v → v ≠ notAnswered := by
    intro k v hk
    simp only [exAns7, applySelects, List.foldl, selectAnswer, setAnswer,
      emptyAnswers, List.isEmpty_cons, Bool.false_eq_true, if_false] at hk
    split_ifs at hk
    all_goals cases hk
    all_goals decide
  refine ⟨hv, ?_⟩
  rw [c7_submission_format exQuiz7 exQid7 exAns7 hv]
  decide

/-! ## Clearing a session -/

theorem foldl_del_none_preserved (quizId : List Char) (l : List Question)
    (a : Answers) (k : List Char) (h : a k = none) :
    (l.foldl (fun acc q => delAnswer acc (qkey quizId q.number)) a) k = none := by
  induction l generalizing a with
  | nil => exact h
  | cons q t ih =>
    simp only [List.foldl]
    refine ih _ ?_
    simp only [delAnswer]
    split_ifs <;> simp [h]

theorem foldl_del_lookup_none (quizId : List Char) (l : List Question)
    (a : Answers) (q : Question) (hq : q ∈ l) :
    (l.foldl (fun acc q2 => delAnswer acc (qkey quizId q2.number)) a)
      (qkey quizId q.number) = none := by
  induction l generalizing a with
  | nil => cases hq
  | cons q2 t ih =>
    simp only [List.foldl]
    rcases List.mem_cons.mp hq with rfl | hq2
    · refine foldl_del_none_preserved quizId t _ _ ?_
      simp [delAnswer]
    · exact ih _ hq2

/-- After the Clear Answers handler runs, no question of this quiz has a
recorded selection. -/
theorem clearQuiz_lookup_none (a : Answers) (quizId : List Char)
    (quiz : Quiz) (q : Question) (hq : q ∈ quiz.questions) :
    clearQuiz a quizId quiz (qkey quizId q.number) = none :=
  foldl_del_lookup_none quizId quiz.questions a q hq

/-- C8.  After ANY sequence of selection events on a session (starting
empty), the Clear Answers handler restores the initial empty state: the
answered counter is 0 and the submission built from the cleared state
reports every question as `(Not answered)`.  The quiz data itself is a
separate immutable value the handler never touches, so the underlying
`Quiz` is unchanged by construction. -/
theorem c8_clear_resets (quizId : List Char) (quiz : Quiz)
    (sels : List (Nat × List Char)) :
    answeredCount (clearQuiz (applySelects quizId sels) quizId quiz)
        quizId quiz = 0 ∧
      format_quiz_answers_for_submission quiz quizId
          (clearQuiz (applySelects quizId sels) quizId quiz) =
        preambleChars ++
          (List.intercalate ['\n'] (quiz.questions.map
            (fun q => natToDigits q.number ++
              '.' :: ' ' :: '(' :: (notAnswered ++ [')'])))) ++
          trailerChars := by
  have hnone : ∀ q ∈ quiz.questions,
      clearQuiz (applySelects quizId sels) quizId quiz
        (qkey quizId q.number) = none :=
    fun q hq => clearQuiz_lookup_none _ quizId quiz q hq
  constructor
  · refine List.countP_eq_zero.mpr ?_
    intro q hq
    simp [answeredOne, hnone q hq]
  · unfold format_quiz_answers_for_submission
    have hmap : quiz.questions.map
        (submissionLine (clearQuiz (applySelects quizId sels) quizId quiz) quizId) =
        quiz.questions.map (fun q => natToDigits q.number ++
          '.' :: ' ' :: '(' :: (notAnswered ++ [')'])) := by
      apply List.map_congr_left
      intro q hq
      simp [submissionLine, hnone q hq]
    rw [hmap]

/-! ## Aliasing of duplicate question numbers -/

theorem two_le_countP (p : Question → Bool) (l : List Question) (i j : Nat)
    (x y : Question) (hij : i < j) (hi : l.get? i = some x)
    (hj : l.get? j = some y) (hx : p x = true) (hy : p y = true) :
    2 ≤ l.countP p := by
  induction l generalizing i j with
  | nil => simp at hi
  | cons c t ih =>
    cases i with
    | zero =>
      rw [List.get?_cons_zero] at hi
      obtain rfl := Option.some.inj hi
      cases j with
      | zero => omega
      | succ j =>
        rw [List.get?_cons_succ] at hj
        have h1 : 0 < t.countP p :=
          List.countP_pos_iff.mpr ⟨y, List.get?_mem hj, hy⟩
        rw [List.countP_cons, if_pos hx]
        omega
    | succ i =>
      cases j with
      | zero => omega
      | succ j =>
        rw [List.get?_cons_succ] at hi hj
        have h2 := ih i j (by omega) hi hj
        rw [List.countP_cons]
        split_ifs <;> omega

/-- C10.  Answer state is keyed only by quiz id and question number, so in
an extracted quiz holding two questions with the same `number`, the two
questions alias one answer slot: one selection records the letter under
BOTH questions' keys, the answered counter counts both questions, and the
submission carries the same selected letter on both of their lines. -/
theorem c10_duplicate_number_alias (s : List Char) (quiz : Quiz)
    (quizId letter : List Char) (i j : Nat) (qi qj : Question)
    (hparse : parse_quiz_from_response s = some quiz)
    (hi : quiz.questions.get? i = some qi)
    (hj : quiz.questions.get? j = some qj)
    (hij : i < j)
    (hnum : qi.number = qj.number)
    (hl : letter ≠ [])
    (hl2 : letter ≠ notAnswered) :
    (selectAnswer emptyAnswers quizId qi.number letter
        (qkey quizId qi.number) = some letter ∧
      selectAnswer emptyAnswers quizId qi.number letter
        (qkey quizId qj.number) = some letter) ∧
      2 ≤ answeredCount (selectAnswer emptyAnswers quizId qi.number letter)
        quizId quiz ∧
      ((quiz.questions.map (submissionLine
          (selectAnswer emptyAnswers quizId qi.number letter) quizId)).get? i =
        some (natToDigits qi.number ++ '.' :: ' ' :: letter) ∧
       (quiz.questions.map (submissionLine
          (selectAnswer emptyAnswers quizId qi.number letter) quizId)).get? j =
        some (natToDigits qj.number ++ '.' :: ' ' :: letter)) := by
  have hne : letter.isEmpty = false := by
    cases letter with
    | nil => exact absurd rfl hl
    | cons c t => rfl
  have hsel : selectAnswer emptyAnswers quizId qi.number letter =
      setAnswer emptyAnswers (qkey quizId qi.number) letter := by
    unfold selectAnswer
    rw [hne]
    rfl
  have hki : selectAnswer emptyAnswers quizId qi.number letter
      (qkey quizId qi.number) = some letter := by
    rw [hsel]
    simp [setAnswer]
  have hkj : selectAnswer emptyAnswers quizId qi.number letter
      (qkey quizId qj.number) = some letter := by
    rw [← hnum]
    exact hki
  have hone : ∀ q : Question, q.number = qi.number →
      answeredOne (selectAnswer emptyAnswers quizId qi.number letter)
        quizId q = true := by
    intro q hq
    unfold answeredOne
    rw [hq, hki]
    simp [hne]
  have hlinei : submissionLine (selectAnswer emptyAnswers quizId qi.number letter)
      quizId qi = natToDigits qi.number ++ '.' :: ' ' :: letter := by
    unfold submissionLine
    rw [hki]
    simp [hl2]
  have hlinej : submissionLine (selectAnswer emptyAnswers quizId qi.number letter)
      quizId qj = natToDigits qj.number ++ '.' :: ' ' :: letter := by
    unfold submissionLine
    rw [hkj]
    simp [hl2]
  refine ⟨⟨hki, hkj⟩, ?_, ?_, ?_⟩
  · exact two_le_countP _ quiz.questions i j qi qj hij hi hj
      (hone qi rfl) (hone qj (hnum.symm))
  · rw [List.get?_map, hi, Option.map_some', hlinei]
  · rw [List.get?_map, hj, Option.map_some', hlinej]

def vq10a : Question :=
  { number := 1, question := ['Q', '?'],
    options := [('A', ['a']), ('B', ['b']), ('C', ['c'])] }

def vq10b : Question :=
  { number := 1, question := ['R', '?'],
    options := [('A', ['d']), ('B', ['e']), ('C', ['f'])] }

/-- Witness for C10: `exC10` extracts two questions both numbered 1, and a
single selection of `A` answers both. -/
theorem c10_duplicate_number_alias_witness :
    (parse_quiz_from_response exC10 = some valC10 ∧
      valC10.questions.get? 0 = some vq10a ∧
      valC10.questions.get? 1 = some vq10b ∧
      vq10a.number = vq10b.number) ∧
      ((selectAnswer emptyAnswers ['q'] vq10a.number ['A']
          (qkey ['q'] vq10a.number) = some ['A'] ∧
        selectAnswer emptyAnswers ['q'] vq10a.number ['A']
          (qkey ['q'] vq10b.number) = some ['A']) ∧
        2 ≤ answeredCount (selectAnswer emptyAnswers ['q'] vq10a.number ['A'])
          ['q'] valC10 ∧
        ((valC10.questions.map (submissionLine
            (selectAnswer emptyAnswers ['q'] vq10a.number ['A']) ['q'])).get? 0 =
          some (natToDigits vq10a.number ++ '.' :: ' ' :: ['A']) ∧
         (valC10.questions.map (submissionLine
            (selectAnswer emptyAnswers ['q'] vq10a.number ['A']) ['q'])).get? 1 =
          some (natToDigits vq10b.number ++ '.' :: ' ' :: ['A']))) :=
  ⟨⟨by decide, by decide, by decide, by decide⟩,
    c10_duplicate_number_alias exC10 valC10 ['q'] ['A'] 0 1 vq10a vq10b
      (by decide) (by decide) (by decide) (by decide) (by decide)
      (by decide) (by decide)⟩

end ProfeBot
